import Mathlib

/-!
# Verification of the playlistify-api core against its specification

Shallow embedding of the repository's core logic:

* the CSV training pipeline (`CSVTrainer` in the training script:
  `trackFeaturesToVector`, adjacent-pair extraction and the
  train/validation split of `prepareTrainingData`), modelled over `ℚ`
  (JavaScript numbers idealized as exact rationals, `NaN`/`undefined`
  as `Option.none`);
* the serving path (`performAnalysis` in the API server), with the
  external `DataProcessor` vectorizer and the TensorFlow model taken
  as function parameters;
* the insight engine (`generateInsights`, `generateRecommendations`
  and their helpers), modelled over `ℝ` because `standardDeviation`
  takes a square root.
-/

/-! ## CSV trainer: feature records and vectorization -/

/-- A raw CSV feature payload as consumed by `CSVTrainer.trackFeaturesToVector`
(which receives `features: any`). Every field may be absent; `none` models a
JavaScript `undefined` (and the `NaN` an arithmetic operation on it yields). -/
structure CSVFeatures where
  danceability : Option ℚ
  energy : Option ℚ
  key : Option ℚ
  loudness : Option ℚ
  mode : Option ℚ
  speechiness : Option ℚ
  acousticness : Option ℚ
  instrumentalness : Option ℚ
  liveness : Option ℚ
  valence : Option ℚ
  tempo : Option ℚ
  duration_ms : Option ℚ
  time_signature : Option ℚ
  hour_of_day : Option ℚ
  day_of_week : Option ℚ
  month : Option ℚ
  is_weekend : Option ℚ
  skip_rate : Option ℚ
  repeat_count : Option ℚ
  playlist_position : Option ℚ
  deriving DecidableEq

/-- The JavaScript idiom `e || 0` applied to a numeric expression `e`:
`none` (absent operand, i.e. `NaN`) and `0` both yield `0`, any other
number is returned unchanged. -/
def jsOrZero : Option ℚ → ℚ
  | some x => if x = 0 then 0 else x
  | none => 0

/-- `CSVTrainer.trackFeaturesToVector`: the 20-entry input vector, each entry
of the form `features.f || 0` or `features.f / c || 0` exactly as in the
source (tempo divided by 200, duration_ms by 300000, time_signature by 7,
day_of_week by 7, month by 12, repeat_count by 5). -/
def trackFeaturesToVector (features : CSVFeatures) : List ℚ :=
  [ jsOrZero features.danceability,
    jsOrZero features.energy,
    jsOrZero features.key,
    jsOrZero features.loudness,
    jsOrZero features.mode,
    jsOrZero features.speechiness,
    jsOrZero features.acousticness,
    jsOrZero features.instrumentalness,
    jsOrZero features.liveness,
    jsOrZero features.valence,
    jsOrZero (features.tempo.map (fun t => t / 200)),
    jsOrZero (features.duration_ms.map (fun d => d / 300000)),
    jsOrZero (features.time_signature.map (fun t => t / 7)),
    jsOrZero features.hour_of_day,
    jsOrZero (features.day_of_week.map (fun d => d / 7)),
    jsOrZero (features.month.map (fun m => m / 12)),
    jsOrZero features.is_weekend,
    jsOrZero features.skip_rate,
    jsOrZero (features.repeat_count.map (fun r => r / 5)),
    jsOrZero features.playlist_position ]

/-- A track as consumed by the trainer: identity plus an optional feature
payload (`features?: TrackFeatures` in `types/index.ts`). Fields not read by
the training pipeline (timestamps, album, popularity) are omitted. -/
structure CSVTrack where
  id : String
  name : String
  artist : String
  features : Option CSVFeatures
  deriving DecidableEq

/-- A listening session as consumed by the trainer (`ListeningSession` in
`types/index.ts`); only `tracks` is read by pair extraction. -/
structure ListeningSession where
  session_id : String
  tracks : List CSVTrack
  deriving DecidableEq

/-- The inner loop of `CSVTrainer.prepareTrainingData` over one session:
for each adjacent index pair `(i, i+1)`, if both tracks have a feature
payload, emit one (input vector, label) example, where the label is the next
track's `[valence, energy, danceability]`. A label field absent from the
payload would be `undefined` (hence `NaN` in the tensor) in JavaScript; it is
modelled as `0` here, which no claim depends on. -/
def sessionExamples : List CSVTrack → List (List ℚ × List ℚ)
  | currentTrack :: nextTrack :: rest =>
    (match currentTrack.features, nextTrack.features with
     | some cf, some nf =>
       [(trackFeaturesToVector cf,
         [nf.valence.getD 0, nf.energy.getD 0, nf.danceability.getD 0])]
     | _, _ => []) ++ sessionExamples (nextTrack :: rest)
  | _ => []

/-- The example-collection loop of `prepareTrainingData`: sessions are
traversed in order and their examples appended to the shared
`allInputs`/`allLabels` arrays. -/
def extractExamples (sessions : List ListeningSession) : List (List ℚ × List ℚ) :=
  sessions.flatMap (fun s => sessionExamples s.tracks)

/-- `tf.tensor2d` on a nested number array: on an empty value list the shape
cannot be inferred as rank 2 and the library throws; otherwise the values are
returned unchanged (a rank-2 tensor is modelled as its row list). -/
def tensor2d (values : List (List ℚ)) : Except String (List (List ℚ)) :=
  if values.isEmpty then
    Except.error "tensor2d() requires shape to be provided when using flat values"
  else
    Except.ok values

/-- `tensor.slice([start, 0], [size, -1])`: rows `start` to `start + size`. -/
def tfSlice (tensor : List (List ℚ)) (start size : ℕ) : List (List ℚ) :=
  (tensor.drop start).take size

/-- A pair of parallel tensors as returned by `prepareTrainingData`
(`{ inputs, labels }`). -/
structure TensorPair where
  inputs : List (List ℚ)
  labels : List (List ℚ)
  deriving DecidableEq

/-- `CSVTrainer.prepareTrainingData` from session construction onwards:
extract adjacent-pair examples from the sessions, stack them into two
tensors, and split off the last `Math.floor(N * validationSplit)` examples
as validation data, keeping the first `N - numValidation` as training data.
The session-construction and CSV-loading steps upstream of the example loop
live in the external `CSVDataLoader` and are received here as the already
built session list. -/
def prepareTrainingData (sessions : List ListeningSession) (validationSplit : ℚ) :
    Except String (TensorPair × TensorPair) := do
  let allExamples := extractExamples sessions
  let allInputs := allExamples.map Prod.fst
  let allLabels := allExamples.map Prod.snd
  let inputsTensor ← tensor2d allInputs
  let labelsTensor ← tensor2d allLabels
  let numValidation : ℕ := (⌊(allInputs.length : ℚ) * validationSplit⌋).toNat
  let numTrain : ℕ := allInputs.length - numValidation
  Except.ok
    (⟨tfSlice inputsTensor 0 numTrain, tfSlice labelsTensor 0 numTrain⟩,
     ⟨tfSlice inputsTensor numTrain numValidation,
      tfSlice labelsTensor numTrain numValidation⟩)

/-- Decidable equality for `Except` results, used to evaluate the pipeline
on concrete corpora. -/
instance {ε α : Type} [DecidableEq ε] [DecidableEq α] : DecidableEq (Except ε α) :=
  fun x y =>
    match x, y with
    | Except.ok a, Except.ok b =>
      if h : a = b then Decidable.isTrue (by rw [h])
      else Decidable.isFalse (by intro hh; cases hh; exact h rfl)
    | Except.error a, Except.error b =>
      if h : a = b then Decidable.isTrue (by rw [h])
      else Decidable.isFalse (by intro hh; cases hh; exact h rfl)
    | Except.ok _, Except.error _ => Decidable.isFalse (by intro hh; cases hh)
    | Except.error _, Except.ok _ => Decidable.isFalse (by intro hh; cases hh)

/-- The per-pair step of example extraction, as a function of one adjacent
track pair: `some` example when both tracks carry a feature payload,
`none` (pair dropped) otherwise. -/
def adjacentPairExample (p : CSVTrack × CSVTrack) : Option (List ℚ × List ℚ) :=
  match p.1.features, p.2.features with
  | some cf, some nf =>
    some (trackFeaturesToVector cf,
      [nf.valence.getD 0, nf.energy.getD 0, nf.danceability.getD 0])
  | _, _ => none

/-- A fully populated feature payload with every field equal to `x`. -/
def fullFeatures (x : ℚ) : CSVFeatures :=
  ⟨some x, some x, some x, some x, some x, some x, some x, some x, some x,
   some x, some x, some x, some x, some x, some x, some x, some x, some x,
   some x, some x⟩

/-- A track carrying a full feature payload. -/
def demoTrack (i : String) (x : ℚ) : CSVTrack :=
  ⟨i, i, i, some (fullFeatures x)⟩

/-- A track with no feature payload. -/
def bareTrack (i : String) : CSVTrack :=
  ⟨i, i, i, none⟩

/-- One session of two fully featured tracks: exactly one training example. -/
def demoSessionsOne : List ListeningSession :=
  [⟨"s1", [demoTrack "a" (1/2), demoTrack "b" (3/5)]⟩]

/-- One session of three fully featured tracks: exactly two training examples. -/
def demoSessionsTwo : List ListeningSession :=
  [⟨"s2", [demoTrack "a" (1/2), demoTrack "b" (3/5), demoTrack "c" (7/10)]⟩]

/-- A three-track session in which the first and last track lack features. -/
def demoTracksMissing : List CSVTrack :=
  [bareTrack "a", demoTrack "b" (1/2), bareTrack "c"]

/-! ## API server: performAnalysis -/

/-- The `mood_prediction` record assembled by `performAnalysis`
(`{ valence, energy, arousal }`); `none` models the JavaScript `undefined`
obtained when the flattened prediction array is indexed out of range. -/
structure MoodPrediction where
  valence : Option ℚ
  energy : Option ℚ
  arousal : Option ℚ
  deriving DecidableEq

/-- The `next_track_prediction` record assembled by `performAnalysis`
(`{ valence, energy, danceability }`). -/
structure NextTrackPrediction where
  valence : Option ℚ
  energy : Option ℚ
  danceability : Option ℚ
  deriving DecidableEq

/-- The `confidence_scores` record (`{ mood, next_track }`). -/
structure ConfidenceScores where
  mood : ℚ
  next_track : ℚ
  deriving DecidableEq

/-- `ModelPredictions` as assembled by `performAnalysis` in the API server. -/
structure ModelPredictions where
  mood_prediction : MoodPrediction
  pattern_embedding : List ℚ
  next_track_prediction : NextTrackPrediction
  confidence_scores : ConfidenceScores
  deriving DecidableEq

/-- The analysis payload returned by `performAnalysis`: predictions plus the
metadata fields that are pure functions of the input (`tracks_analyzed`,
`model_version`; the wall-clock `analysis_timestamp` is omitted from the
model). -/
structure AnalysisResult where
  predictions : ModelPredictions
  tracks_analyzed : ℕ
  model_version : String
  deriving DecidableEq

/-- `VibeChainAPI.performAnalysis`, for a request that reaches the model
(the no-model-loaded guard is upstream). The two external collaborators are
parameters: `vectorize` is `DataProcessor.trackFeaturesToVector` (a separate
function from the trainer-side one, living outside the shared sources), and
`predict` is the composition of `model.predict` with `tensor.data()`, i.e.
it yields the flattened batch output array. Tensor allocation and disposal
have no observable effect on the returned value and are not modelled.
An empty track list raises `ValidationError`, modelled as `Except.error`. -/
def performAnalysis {α : Type} (vectorize : α → List ℚ)
    (predict : List (List ℚ) → List ℚ) (tracks : List α) :
    Except String AnalysisResult :=
  if tracks.isEmpty then
    Except.error "No tracks provided for analysis"
  else
    let featureVectors := tracks.map vectorize
    let predictionValues := predict featureVectors
    Except.ok
      { predictions :=
          { mood_prediction :=
              ⟨predictionValues.get? 0, predictionValues.get? 1,
               predictionValues.get? 2⟩,
            pattern_embedding := predictionValues.take 10,
            next_track_prediction :=
              ⟨predictionValues.get? 0, predictionValues.get? 1,
               predictionValues.get? 2⟩,
            confidence_scores := ⟨0.85, 0.80⟩ },
        tracks_analyzed := tracks.length,
        model_version := "1.0.0" }

/-! ## Insight engine -/

/-- `TrackFeatures` as received by the insight engine: the 20 named scalar
fields of a validated track, as real numbers. -/
structure TrackFeatures where
  danceability : ℝ
  energy : ℝ
  key : ℝ
  loudness : ℝ
  mode : ℝ
  speechiness : ℝ
  acousticness : ℝ
  instrumentalness : ℝ
  liveness : ℝ
  valence : ℝ
  tempo : ℝ
  duration_ms : ℝ
  time_signature : ℝ
  hour_of_day : ℝ
  day_of_week : ℝ
  month : ℝ
  is_weekend : ℝ
  skip_rate : ℝ
  repeat_count : ℝ
  playlist_position : ℝ

/-- The `mood_prediction` component of the predictions record, as read by
the insight engine. -/
structure InsightMoodPrediction where
  valence : ℝ
  energy : ℝ
  arousal : ℝ

/-- The `confidence_scores` component of the predictions record, as read by
the insight engine. -/
structure InsightConfidenceScores where
  mood : ℝ
  next_track : ℝ

/-- The fields of `ModelPredictions` that the insight engine reads
(`mood_prediction` and `confidence_scores`; `pattern_embedding` and
`next_track_prediction` are never consulted by it). -/
structure InsightPredictions where
  mood_prediction : InsightMoodPrediction
  confidence_scores : InsightConfidenceScores

/-- `ListeningInsights`: the five natural-language insight fields. -/
structure ListeningInsights where
  mood : String
  energy : String
  timing : String
  diversity : String
  patterns : List String
  deriving DecidableEq

/-- Modelled from the spec: `mean` from the statistics helpers module, which
is not among the shared sources (only its import is visible): the arithmetic
mean of a list of numbers. -/
noncomputable def mean (xs : List ℝ) : ℝ :=
  xs.sum / xs.length

/-- Modelled from the spec: `standardDeviation` from the missing statistics
helpers module: the square root of the average squared deviation from the
mean. -/
noncomputable def standardDeviation (xs : List ℝ) : ℝ :=
  Real.sqrt (mean (xs.map (fun x => (x - mean xs) ^ 2)))

/-- `generateMoodInsight`: branch on the predicted valence against the 0.7
and 0.3 thresholds, then on the batch mean valence against the same
threshold. -/
noncomputable def generateMoodInsight (tracks : List TrackFeatures)
    (predictions : InsightPredictions) : String :=
  let avgValence := mean (tracks.map (fun t => t.valence))
  let predictedValence := predictions.mood_prediction.valence
  if predictedValence > 0.7 then
    if avgValence > 0.7 then
      "Your music taste consistently leans towards positive, uplifting tracks. You seem to use music to maintain or boost your mood."
    else
      "While your recent tracks show varied emotions, your listening pattern suggests a preference for uplifting music when making future choices."
  else if predictedValence < 0.3 then
    if avgValence < 0.3 then
      "You gravitate towards more melancholic or introspective music. This could indicate you use music for emotional processing or prefer deeper, more complex emotions."
    else
      "Your model predicts a shift towards more contemplative music choices, possibly indicating a change in mood or preference."
  else
    "Your music taste spans a balanced emotional range, suggesting you adapt your listening to different moods and situations."

/-- `generateEnergyInsight`. -/
noncomputable def generateEnergyInsight (tracks : List TrackFeatures)
    (predictions : InsightPredictions) : String :=
  let avgEnergy := mean (tracks.map (fun t => t.energy))
  let energyVariance := standardDeviation (tracks.map (fun t => t.energy))
  let predictedEnergy := predictions.mood_prediction.energy
  if avgEnergy > 0.7 then
    if energyVariance < 0.2 then
      "You consistently prefer high-energy, danceable music. Your listening style suggests you use music for motivation and activity."
    else
      "While you enjoy high-energy music, you also appreciate variety in intensity, showing adaptability in your musical preferences."
  else if avgEnergy < 0.3 then
    "You gravitate towards calmer, more relaxed tracks. This suggests you often use music for relaxation, focus, or introspection."
  else
    let energyTrend := if predictedEnergy > avgEnergy then "increasing" else "decreasing"
    "Your energy preferences are moderate and balanced. The model predicts your next choices will trend towards " ++ energyTrend ++ " energy levels."

/-- `generateTimingInsight`: circadian bucket from the de-normalized mean
hour, plus a weekend-ratio clause appended to it. -/
noncomputable def generateTimingInsight (tracks : List TrackFeatures) : String :=
  let hours := tracks.map (fun t => t.hour_of_day * 24)
  let avgHour := mean hours
  let weekendTracks := (tracks.filter (fun t => t.is_weekend > 0.5)).length
  let weekendRatio := (weekendTracks : ℝ) / (tracks.length : ℝ)
  let timeInsight :=
    if avgHour < 6 then
      "You\x27re a night owl, with most listening happening in the early morning hours."
    else if avgHour < 12 then
      "You\x27re an early bird listener, preferring morning music sessions."
    else if avgHour < 18 then
      "Your listening patterns center around afternoon hours, possibly during work or study."
    else
      "You\x27re an evening listener, enjoying music during nighttime hours."
  if weekendRatio > 0.7 then
    timeInsight ++ " Your listening heavily skews towards weekends, suggesting music is part of your leisure time."
  else if weekendRatio < 0.3 then
    timeInsight ++ " You listen more during weekdays, possibly as part of your work or commute routine."
  else
    timeInsight ++ " Your listening is well-distributed across weekdays and weekends."

/-- The five designated diversity features (danceability, energy, valence,
acousticness, instrumentalness), as field accessors. -/
def diversityFeatures : List (TrackFeatures → ℝ) :=
  [fun t => t.danceability, fun t => t.energy, fun t => t.valence,
   fun t => t.acousticness, fun t => t.instrumentalness]

/-- `generateDiversityInsight`: average the per-feature standard deviations
over the five designated features and classify into three buckets. -/
noncomputable def generateDiversityInsight (tracks : List TrackFeatures) : String :=
  let diversityScores := diversityFeatures.map (fun f => standardDeviation (tracks.map f))
  let avgDiversity := mean diversityScores
  if avgDiversity > 0.25 then
    "Your music taste is highly diverse, spanning different genres, moods, and styles. You\x27re an adventurous listener who enjoys exploring various musical landscapes."
  else if avgDiversity > 0.15 then
    "You have a moderately diverse music taste with some consistency in preferences. You enjoy variety while maintaining certain stylistic preferences."
  else
    "Your music taste shows strong consistency and focus. You have well-defined preferences and tend to stay within your comfort zone."

/-- `Math.round`: round half towards positive infinity. -/
noncomputable def jsRound (x : ℝ) : ℤ :=
  ⌊x + 1/2⌋

/-- The result record of `analyzeKeyDistribution`. -/
structure KeyDistribution where
  dominantKey : Option ℕ
  distribution : List ℝ

/-- The 12-bin histogram of `Math.round(key * 11)` built by the `forEach`
increment loop of `analyzeKeyDistribution`; modelled as a per-bin count,
which agrees with the loop for the validated inputs the insight engine
receives (`0 ≤ key ≤ 1`, so every bin index is in range). -/
noncomputable def keyCount (tracks : List TrackFeatures) : List ℕ :=
  (List.range 12).map
    (fun i => (tracks.filter (fun t => jsRound (t.key * 11) = i)).length)

/-- `analyzeKeyDistribution`: the dominant key is the index of the maximal
bin, provided that bin exceeds 20% of the tracks. -/
noncomputable def analyzeKeyDistribution (tracks : List TrackFeatures) :
    KeyDistribution :=
  let kc := keyCount tracks
  let maxCount := kc.foldr max 0
  let dominantKey :=
    if (maxCount : ℝ) > (tracks.length : ℝ) * 0.2 then some (kc.indexOf maxCount)
    else none
  { dominantKey := dominantKey,
    distribution := kc.map (fun c => (c : ℝ) / (tracks.length : ℝ)) }

/-- The twelve key names used by the dominant-key pattern string. -/
def keyNames : List String :=
  ["C", "C♯/D♭", "D", "D♯/E♭", "E", "F", "F♯/G♭", "G", "G♯/A♭", "A", "A♯/B♭", "B"]

/-- The result record of `analyzeTempoPatterns`. -/
structure TempoAnalysis where
  variance : ℝ
  dominantRange : String

/-- `analyzeTempoPatterns`: coefficient of variation of the de-normalized
tempos and a dominant-range label from the mean tempo. -/
noncomputable def analyzeTempoPatterns (tracks : List TrackFeatures) :
    TempoAnalysis :=
  let tempos := tracks.map (fun t => t.tempo * 150 + 50)
  let variance := standardDeviation tempos / mean tempos
  let avgTempo := mean tempos
  let dominantRange :=
    if avgTempo < 80 then "slow (60-80)"
    else if avgTempo < 110 then "moderate (80-110)"
    else if avgTempo < 140 then "upbeat (110-140)"
    else "fast (140+)"
  ⟨variance, dominantRange⟩

/-- `analyzeAcousticPreference`: mean of the weighted acoustic score. -/
noncomputable def analyzeAcousticPreference (tracks : List TrackFeatures) : ℝ :=
  mean (tracks.map (fun t =>
    t.acousticness * 0.7 + t.instrumentalness * 0.3 - t.energy * 0.2))

/-- `generatePatternInsights`: up to seven rule blocks, each appending zero
or one string in the fixed source order; the fallback string is returned
when no rule fires. -/
noncomputable def generatePatternInsights (tracks : List TrackFeatures)
    (predictions : InsightPredictions) : List String :=
  let avgSkipRate := mean (tracks.map (fun t => t.skip_rate))
  let skipPatterns : List String :=
    if avgSkipRate > 0.3 then
      ["You tend to skip tracks frequently, suggesting you\x27re selective about what holds your attention."]
    else if avgSkipRate < 0.1 then
      ["You rarely skip tracks, indicating strong satisfaction with your music choices or patient listening habits."]
    else []
  let avgRepeatCount := mean (tracks.map (fun t => t.repeat_count))
  let repeatPatterns : List String :=
    if avgRepeatCount > 0.2 then
      ["You frequently replay songs, suggesting you develop strong attachments to particular tracks."]
    else []
  let keyDistribution := analyzeKeyDistribution tracks
  let keyPatterns : List String :=
    match keyDistribution.dominantKey with
    | some k =>
      ["You show a preference for music in " ++ keyNames.getD k "" ++ ", which might contribute to a consistent harmonic feel in your listening."]
    | none => []
  let tempoAnalysis := analyzeTempoPatterns tracks
  let tempoPatterns : List String :=
    if tempoAnalysis.variance < 0.1 then
      ["Your tempo preferences are consistent, clustering around " ++ tempoAnalysis.dominantRange ++ " BPM."]
    else
      ["Your tempo preferences vary widely, showing adaptability to different rhythmic environments."]
  let acousticPreference := analyzeAcousticPreference tracks
  let acousticPatterns : List String :=
    if acousticPreference > 0.7 then
      ["You strongly prefer acoustic and organic-sounding music over electronic productions."]
    else if acousticPreference < 0.3 then
      ["You lean towards electronic and heavily produced music over acoustic arrangements."]
    else []
  let moodConfidencePatterns : List String :=
    if predictions.confidence_scores.mood > 0.8 then
      ["Your mood preferences are highly predictable, showing consistent emotional patterns in your music choices."]
    else []
  let nextConfidencePatterns : List String :=
    if predictions.confidence_scores.next_track > 0.8 then
      ["Your listening patterns are highly consistent, making your next music choices quite predictable."]
    else []
  let patterns := skipPatterns ++ repeatPatterns ++ keyPatterns ++ tempoPatterns ++
    acousticPatterns ++ moodConfidencePatterns ++ nextConfidencePatterns
  if patterns.length > 0 then patterns
  else ["Your listening patterns show interesting complexity that requires more data to fully understand."]

/-- `generateInsights`: assemble the five insight fields. -/
noncomputable def generateInsights (tracks : List TrackFeatures)
    (predictions : InsightPredictions) : ListeningInsights :=
  { mood := generateMoodInsight tracks predictions,
    energy := generateEnergyInsight tracks predictions,
    timing := generateTimingInsight tracks,
    diversity := generateDiversityInsight tracks,
    patterns := generatePatternInsights tracks predictions }

/-- `String.prototype.includes` from JavaScript: substring containment. -/
def jsIncludes (s pat : String) : Bool :=
  (List.range (s.data.length + 1)).any (fun i => pat.data.isPrefixOf (s.data.drop i))

/-- `generateRecommendations`: mean-comparison deltas beyond a 0.2 margin,
plus a diversity-contingent suggestion obtained by substring-matching the
diversity insight string. -/
noncomputable def generateRecommendations (tracks : List TrackFeatures)
    (predictions : InsightPredictions) : List String :=
  let avgValence := mean (tracks.map (fun t => t.valence))
  let avgEnergy := mean (tracks.map (fun t => t.energy))
  let moodRecs : List String :=
    if predictions.mood_prediction.valence > avgValence + 0.2 then
      ["Try exploring more uplifting genres like reggae, pop-punk, or upbeat folk music."]
    else if predictions.mood_prediction.valence < avgValence - 0.2 then
      ["Consider diving into contemplative genres like ambient, melancholic indie, or classical music."]
    else []
  let energyRecs : List String :=
    if predictions.mood_prediction.energy > avgEnergy + 0.2 then
      ["You might enjoy high-energy genres like electronic dance music, punk rock, or Latin rhythms."]
    else if predictions.mood_prediction.energy < avgEnergy - 0.2 then
      ["Explore calming genres like lo-fi hip hop, acoustic folk, or meditation music."]
    else []
  let diversity := generateDiversityInsight tracks
  let diversityRecs : List String :=
    if jsIncludes diversity "consistent" then
      ["Challenge yourself by exploring a new genre outside your comfort zone this week."]
    else if jsIncludes diversity "diverse" then
      ["Your diverse taste is excellent! Consider creating themed playlists to organize your broad preferences."]
    else []
  moodRecs ++ energyRecs ++ diversityRecs

/-- A demo track for the insight engine: every field `0.5` except the given
valence, energy and skip rate. -/
def demoInsightTrack (valence energy skip : ℝ) : TrackFeatures :=
  ⟨0.5, energy, 0.5, 0.5, 0.5, 0.5, 0.5, 0.5, 0.5, valence,
   0.5, 0.5, 0.5, 0.5, 0.5, 0.5, 0.5, skip, 0.5, 0.5⟩

/-- A demo predictions record with the given predicted valence and the
serving path\x27s constant confidence scores. -/
def demoPredictions (v : ℝ) : InsightPredictions :=
  ⟨⟨v, 0.5, 0.5⟩, ⟨0.85, 0.8⟩⟩

/-! ## Trainer lemmas -/

/-- The JavaScript defaulting idiom agrees with `Option.getD 0`: an absent
field contributes `0`, a present value is kept (also when it is `0`). -/
theorem jsOrZero_eq_getD (o : Option ℚ) : jsOrZero o = o.getD 0 := by
  cases o with
  | none => rfl
  | some x =>
    by_cases h : x = 0 <;> simp [jsOrZero, h]

/-- Generic evaluation of `prepareTrainingData` when at least one example is
extracted: no error is raised and the two tensor pairs are the stated slices
of the stacked example list. -/
theorem prepareTrainingData_ok (sessions : List ListeningSession) (f : ℚ)
    (hne : extractExamples sessions ≠ []) :
    prepareTrainingData sessions f =
      Except.ok
        (⟨((extractExamples sessions).map Prod.fst).take
            ((extractExamples sessions).length -
              (⌊((extractExamples sessions).length : ℚ) * f⌋).toNat),
          ((extractExamples sessions).map Prod.snd).take
            ((extractExamples sessions).length -
              (⌊((extractExamples sessions).length : ℚ) * f⌋).toNat)⟩,
         ⟨(((extractExamples sessions).map Prod.fst).drop
            ((extractExamples sessions).length -
              (⌊((extractExamples sessions).length : ℚ) * f⌋).toNat)).take
              (⌊((extractExamples sessions).length : ℚ) * f⌋).toNat,
          (((extractExamples sessions).map Prod.snd).drop
            ((extractExamples sessions).length -
              (⌊((extractExamples sessions).length : ℚ) * f⌋).toNat)).take
              (⌊((extractExamples sessions).length : ℚ) * f⌋).toNat⟩) := by
  have hi : ((extractExamples sessions).map Prod.fst).isEmpty = false := by
    simp [List.isEmpty_iff, hne]
  have hl : ((extractExamples sessions).map Prod.snd).isEmpty = false := by
    simp [List.isEmpty_iff, hne]
  simp [prepareTrainingData, tensor2d, hi, hl, tfSlice, Bind.bind, Except.bind]

/-! ## C2 -/

/-- C2 counterexample: a corpus producing exactly one training example (fewer
than 2) does not make the pipeline fail fast with a descriptive error; it
returns successfully, handing the model one training example and an empty
validation set. -/
theorem prepareTrainingData_one_example_no_error :
    (extractExamples demoSessionsOne).length = 1 ∧
    (prepareTrainingData demoSessionsOne (1/5)).map
        (fun p => (p.1.inputs.length, p.2.inputs.length)) = Except.ok (1, 0) := by
  have h1 : (extractExamples demoSessionsOne).length = 1 := by
    simp [extractExamples, demoSessionsOne, sessionExamples, demoTrack]
  refine ⟨h1, ?_⟩
  have hne : extractExamples demoSessionsOne ≠ [] := by
    intro h
    rw [h] at h1
    simp at h1
  rw [prepareTrainingData_ok demoSessionsOne (1/5) hne]
  have hv : (⌊((extractExamples demoSessionsOne).length : ℚ) * (1/5)⌋).toNat = 0 := by
    rw [h1]
    norm_num
  simp [Except.map, hv, h1]
  norm_num

/-- C2 as amended: `prepareTrainingData` performs no minimum-example check.
Whenever exactly one example is producible and the validation fraction is in
`[0, 1)`, the pipeline succeeds and proceeds towards model fitting with one
training example and an empty validation set (`numValidation = ⌊1·f⌋ = 0`),
rather than failing fast with a descriptive error. -/
theorem prepareTrainingData_single_example (sessions : List ListeningSession)
    (f : ℚ) (h1 : (extractExamples sessions).length = 1)
    (hf0 : 0 ≤ f) (hf1 : f < 1) :
    prepareTrainingData sessions f =
      Except.ok
        (⟨(extractExamples sessions).map Prod.fst,
          (extractExamples sessions).map Prod.snd⟩,
         ⟨[], []⟩) := by
  have hne : extractExamples sessions ≠ [] := by
    intro h
    rw [h] at h1
    simp at h1
  have hv : (⌊((extractExamples sessions).length : ℚ) * f⌋).toNat = 0 := by
    rw [h1]
    have hf : ⌊f⌋ = 0 := by
      rw [Int.floor_eq_zero_iff]
      exact Set.mem_Ico.mpr ⟨hf0, hf1⟩
    simp [hf]
  rw [prepareTrainingData_ok sessions f hne, hv]
  have hlf : ((extractExamples sessions).map Prod.fst).length ≤
      (extractExamples sessions).length - 0 := by
    simp
  have hll : ((extractExamples sessions).map Prod.snd).length ≤
      (extractExamples sessions).length - 0 := by
    simp
  simp [List.take_of_length_le hlf, List.take_of_length_le hll]

/-- C2 witness for the amended claim, at the concrete one-example corpus. -/
theorem prepareTrainingData_single_example_witness :
    (extractExamples demoSessionsOne).length = 1 ∧ (0 : ℚ) ≤ 1/5 ∧ (1/5 : ℚ) < 1 ∧
    prepareTrainingData demoSessionsOne (1/5) =
      Except.ok
        (⟨(extractExamples demoSessionsOne).map Prod.fst,
          (extractExamples demoSessionsOne).map Prod.snd⟩,
         ⟨[], []⟩) :=
  ⟨by simp [extractExamples, demoSessionsOne, sessionExamples, demoTrack],
   by norm_num, by norm_num,
   prepareTrainingData_single_example demoSessionsOne (1/5)
     (by simp [extractExamples, demoSessionsOne, sessionExamples, demoTrack])
     (by norm_num) (by norm_num)⟩

/-! ## C3 -/

/-- C3: the train/validation split of `prepareTrainingData` preserves the
original example order with no pre-split shuffling: with `N` extracted
examples and validation fraction `f ∈ [0,1]`, the training tensors hold
exactly the first `N - ⌊N·f⌋` examples and the validation tensors exactly
the last `⌊N·f⌋` examples, in order. -/
theorem prepareTrainingData_split_ordered (sessions : List ListeningSession)
    (f : ℚ) (N v : ℕ) (_hf0 : 0 ≤ f) (hf1 : f ≤ 1)
    (hne : extractExamples sessions ≠ [])
    (hN : N = (extractExamples sessions).length)
    (hv : v = (⌊(N : ℚ) * f⌋).toNat) :
    prepareTrainingData sessions f =
      Except.ok
        (⟨((extractExamples sessions).map Prod.fst).take (N - v),
          ((extractExamples sessions).map Prod.snd).take (N - v)⟩,
         ⟨((extractExamples sessions).map Prod.fst).drop (N - v),
          ((extractExamples sessions).map Prod.snd).drop (N - v)⟩) ∧
      (((extractExamples sessions).map Prod.fst).drop (N - v)).length = v := by
  have hvN : v ≤ N := by
    have h1 : (N : ℚ) * f ≤ (N : ℚ) := mul_le_of_le_one_right (Nat.cast_nonneg N) hf1
    have h2 : ⌊(N : ℚ) * f⌋ ≤ (N : ℤ) := by
      calc ⌊(N : ℚ) * f⌋ ≤ ⌊(N : ℚ)⌋ := Int.floor_le_floor h1
        _ = (N : ℤ) := Int.floor_natCast N
    rw [hv]
    exact Int.toNat_le.mpr h2
  have hdf : (((extractExamples sessions).map Prod.fst).drop (N - v)).length = v := by
    simp [List.length_drop, ← hN]
    omega
  have hdl : (((extractExamples sessions).map Prod.snd).drop (N - v)).length = v := by
    simp [List.length_drop, ← hN]
    omega
  refine ⟨?_, hdf⟩
  rw [prepareTrainingData_ok sessions f hne]
  rw [← hN, ← hv]
  rw [List.take_of_length_le hdf.le, List.take_of_length_le hdl.le]

/-- C3 witness: a two-example corpus split with fraction `1/2`: the first
example trains, the last validates. -/
theorem prepareTrainingData_split_ordered_witness :
    (0 : ℚ) ≤ 1/2 ∧ (1/2 : ℚ) ≤ 1 ∧
    extractExamples demoSessionsTwo ≠ [] ∧
    2 = (extractExamples demoSessionsTwo).length ∧
    1 = (⌊((2 : ℕ) : ℚ) * (1/2)⌋).toNat ∧
    (prepareTrainingData demoSessionsTwo (1/2) =
      Except.ok
        (⟨((extractExamples demoSessionsTwo).map Prod.fst).take (2 - 1),
          ((extractExamples demoSessionsTwo).map Prod.snd).take (2 - 1)⟩,
         ⟨((extractExamples demoSessionsTwo).map Prod.fst).drop (2 - 1),
          ((extractExamples demoSessionsTwo).map Prod.snd).drop (2 - 1)⟩) ∧
      (((extractExamples demoSessionsTwo).map Prod.fst).drop (2 - 1)).length = 1) :=
  ⟨by norm_num, by norm_num,
   by simp [extractExamples, demoSessionsTwo, sessionExamples, demoTrack],
   by simp [extractExamples, demoSessionsTwo, sessionExamples, demoTrack],
   by norm_num,
   prepareTrainingData_split_ordered demoSessionsTwo (1/2) 2 1
     (by norm_num) (by norm_num)
     (by simp [extractExamples, demoSessionsTwo, sessionExamples, demoTrack])
     (by simp [extractExamples, demoSessionsTwo, sessionExamples, demoTrack])
     (by norm_num)⟩

/-! ## C4 -/

/-- C4: per-session training pairs are exactly the adjacent index pairs
whose two endpoints both carry a feature payload; a pair with a missing
payload on either side is dropped silently, so a 3-track session with 2
featureless tracks yields at most one pair, and extraction is total. -/
theorem sessionExamples_adjacent_pairs (tracks : List CSVTrack) :
    sessionExamples tracks =
      (tracks.zip tracks.tail).filterMap adjacentPairExample ∧
    (tracks.length = 3 →
      2 ≤ (tracks.filter (fun t => t.features.isNone)).length →
      (sessionExamples tracks).length ≤ 1) := by
  constructor
  · induction tracks with
    | nil => rfl
    | cons a rest ih =>
      cases rest with
      | nil => rfl
      | cons b rest2 =>
        cases ha : a.features <;> cases hb : b.features <;>
          simp [sessionExamples, adjacentPairExample, ha, hb, ih]
  · intro h3 hmiss
    obtain ⟨a, b, c, rfl⟩ := List.length_eq_three.mp h3
    cases ha : a.features <;> cases hb : b.features <;> cases hc : c.features <;>
      simp_all [sessionExamples, List.filter]

/-- C4 witness: the 3-track session whose first and last track lack features
yields at most one pair (here: zero), without any error. -/
theorem sessionExamples_adjacent_pairs_witness :
    demoTracksMissing.length = 3 ∧
    2 ≤ (demoTracksMissing.filter (fun t => t.features.isNone)).length ∧
    (sessionExamples demoTracksMissing).length ≤ 1 :=
  ⟨by simp [demoTracksMissing],
   by simp [demoTracksMissing, bareTrack, demoTrack],
   (sessionExamples_adjacent_pairs demoTracksMissing).2
     (by simp [demoTracksMissing])
     (by simp [demoTracksMissing, bareTrack, demoTrack])⟩

/-! ## C5 -/

/-- C5: `trackFeaturesToVector` always returns exactly 20 numbers, in the
fixed field order with `danceability` first and `playlist_position` last,
`tempo` divided by 200 and `duration_ms` by 300000 (and the other documented
per-field divisors); every absent field contributes `0` (the `getD 0` on the
right), and the function is total, so it never raises. -/
theorem trackFeaturesToVector_contract (f : CSVFeatures) :
    (trackFeaturesToVector f).length = 20 ∧
    trackFeaturesToVector f =
      [f.danceability.getD 0, f.energy.getD 0, f.key.getD 0, f.loudness.getD 0,
       f.mode.getD 0, f.speechiness.getD 0, f.acousticness.getD 0,
       f.instrumentalness.getD 0, f.liveness.getD 0, f.valence.getD 0,
       (f.tempo.map (fun t => t / 200)).getD 0,
       (f.duration_ms.map (fun d => d / 300000)).getD 0,
       (f.time_signature.map (fun t => t / 7)).getD 0,
       f.hour_of_day.getD 0,
       (f.day_of_week.map (fun d => d / 7)).getD 0,
       (f.month.map (fun m => m / 12)).getD 0,
       f.is_weekend.getD 0, f.skip_rate.getD 0,
       (f.repeat_count.map (fun r => r / 5)).getD 0,
       f.playlist_position.getD 0] := by
  refine ⟨rfl, ?_⟩
  simp [trackFeaturesToVector, jsOrZero_eq_getD]

/-! ## C1 -/

/-- C1: every analyze request that reaches prediction gets the configured
constant confidence scores `mood = 0.85` and `next_track = 0.80`, whatever
the input tracks, the vectorizer, and the model output are: the scores are
not derived from model uncertainty. -/
theorem performAnalysis_constant_confidence {α : Type} (vectorize : α → List ℚ)
    (predict : List (List ℚ) → List ℚ) (tracks : List α)
    (hne : tracks ≠ []) :
    (performAnalysis vectorize predict tracks).map
        (fun r => r.predictions.confidence_scores) =
      Except.ok ⟨0.85, 0.80⟩ := by
  have h : tracks.isEmpty = false := by
    simp [hne]
  simp [performAnalysis, h, Except.map]

/-- C1 witness at a one-track request and an arbitrary model. -/
theorem performAnalysis_constant_confidence_witness :
    ([()] : List Unit) ≠ [] ∧
    (performAnalysis (fun _ => List.replicate 20 (0:ℚ))
        (fun _ => [1, 2, 3]) [()]).map
        (fun r => r.predictions.confidence_scores) =
      Except.ok ⟨0.85, 0.80⟩ :=
  ⟨by simp,
   performAnalysis_constant_confidence (fun _ => List.replicate 20 (0:ℚ))
     (fun _ => [1, 2, 3]) [()] (by simp)⟩

/-! ## C10 -/

/-- C10: for every non-empty analyze request, `mood_prediction` and
`next_track_prediction` are built solely from components 0, 1, 2 of the
flattened prediction array — the model output for the first track only,
whatever the batch size — and `pattern_embedding` is the `slice(0, 10)`
prefix of that flattened batch output. -/
theorem performAnalysis_uses_first_track {α : Type} (vectorize : α → List ℚ)
    (predict : List (List ℚ) → List ℚ) (tracks : List α)
    (hne : tracks ≠ []) :
    ∃ r, performAnalysis vectorize predict tracks = Except.ok r ∧
      r.predictions.mood_prediction =
        ⟨(predict (tracks.map vectorize)).get? 0,
         (predict (tracks.map vectorize)).get? 1,
         (predict (tracks.map vectorize)).get? 2⟩ ∧
      r.predictions.next_track_prediction =
        ⟨(predict (tracks.map vectorize)).get? 0,
         (predict (tracks.map vectorize)).get? 1,
         (predict (tracks.map vectorize)).get? 2⟩ ∧
      r.predictions.pattern_embedding =
        (predict (tracks.map vectorize)).take 10 := by
  have h : tracks.isEmpty = false := by
    simp [hne]
  simp only [performAnalysis, h, Bool.false_eq_true, if_false]
  exact ⟨_, rfl, rfl, rfl, rfl⟩

/-- C10 witness at a two-track request whose model output has six
components: only the first three feed the mood and next-track records. -/
theorem performAnalysis_uses_first_track_witness :
    ([(), ()] : List Unit) ≠ [] ∧
    (∃ r, performAnalysis (fun _ => List.replicate 20 (0:ℚ))
          (fun _ => [1, 2, 3, 4, 5, 6]) [(), ()] = Except.ok r ∧
      r.predictions.mood_prediction =
        ⟨(([1, 2, 3, 4, 5, 6] : List ℚ)).get? 0,
         (([1, 2, 3, 4, 5, 6] : List ℚ)).get? 1,
         (([1, 2, 3, 4, 5, 6] : List ℚ)).get? 2⟩ ∧
      r.predictions.next_track_prediction =
        ⟨(([1, 2, 3, 4, 5, 6] : List ℚ)).get? 0,
         (([1, 2, 3, 4, 5, 6] : List ℚ)).get? 1,
         (([1, 2, 3, 4, 5, 6] : List ℚ)).get? 2⟩ ∧
      r.predictions.pattern_embedding =
        (([1, 2, 3, 4, 5, 6] : List ℚ)).take 10) :=
  ⟨by simp,
   performAnalysis_uses_first_track (fun _ => List.replicate 20 (0:ℚ))
     (fun _ => [1, 2, 3, 4, 5, 6]) [(), ()] (by simp)⟩

/-! ## Insight engine lemmas -/

/-- Helper: the arithmetic mean is invariant under permutation. -/
theorem mean_perm {xs ys : List ℝ} (h : xs.Perm ys) : mean xs = mean ys := by
  simp [mean, h.sum_eq, h.length_eq]

/-- Helper: the standard deviation is invariant under permutation. -/
theorem standardDeviation_perm {xs ys : List ℝ} (h : xs.Perm ys) :
    standardDeviation xs = standardDeviation ys := by
  have hm : mean xs = mean ys := mean_perm h
  unfold standardDeviation
  rw [hm, mean_perm (h.map (fun x => (x - mean ys) ^ 2))]

/-- Helper: a concatenation `pre ++ mid ++ post` differs from `other` as soon
as the first `n ≤ pre.length` characters of `pre` and `other` differ. -/
theorem append3_ne (pre mid post other : String) (n : ℕ)
    (hlen : n ≤ pre.data.length)
    (hne : pre.data.take n ≠ other.data.take n) :
    pre ++ mid ++ post ≠ other := by
  intro h
  apply hne
  have hd := congrArg String.data h
  rw [String.data_append, String.data_append] at hd
  calc pre.data.take n
      = ((pre.data ++ mid.data) ++ post.data).take n := by
        rw [List.take_append_of_le_length (le_trans hlen (by simp)),
          List.take_append_of_le_length hlen]
    _ = other.data.take n := by rw [hd]

/-! ## C6 -/

/-- C6 counterexample: scenario A is not guaranteed by the batch alone. For
20 tracks of valence 0.9 and energy 0.85 but a predicted valence of 0.2, the
mood insight is the melancholic-branch shift string, not a positive-branch
string: the classification is driven by the predicted valence, not the batch
mean. -/
theorem generateMoodInsight_scenarioA_fails :
    generateMoodInsight (List.replicate 20 (demoInsightTrack 0.9 0.85 0.5))
        (demoPredictions 0.2) =
      "Your model predicts a shift towards more contemplative music choices, possibly indicating a change in mood or preference." ∧
    ("Your model predicts a shift towards more contemplative music choices, possibly indicating a change in mood or preference." ≠
      "Your music taste consistently leans towards positive, uplifting tracks. You seem to use music to maintain or boost your mood.") ∧
    ("Your model predicts a shift towards more contemplative music choices, possibly indicating a change in mood or preference." ≠
      "While your recent tracks show varied emotions, your listening pattern suggests a preference for uplifting music when making future choices.") := by
  have havg : mean ((List.replicate 20 (demoInsightTrack 0.9 0.85 0.5)).map
      (fun t => t.valence)) = 0.9 := by
    simp [demoInsightTrack, mean, List.sum_replicate]
    norm_num
  have hnotlt : ¬(mean ((List.replicate 20 (demoInsightTrack 0.9 0.85 0.5)).map
      (fun t => t.valence)) < 0.3) := by
    rw [havg]
    norm_num
  refine ⟨?_, by decide, by decide⟩
  simp only [generateMoodInsight, demoPredictions]
  rw [if_neg (by norm_num : ¬((0.2:ℝ) > 0.7)),
    if_pos (by norm_num : (0.2:ℝ) < 0.3), if_neg hnotlt]

/-- C6 as amended: the mood insight classifies on the predicted valence
(>0.7 positive family, <0.3 melancholic family, else balanced); the
secondary consistent-vs-shifting distinction compares the batch mean valence
against the same fixed threshold. For a batch whose mean valence exceeds 0.7
(such as 20 tracks at valence 0.9) together with a predicted valence above
0.7, the mood insight is the consistently-positive string and not a
melancholic-branch string. -/
theorem generateMoodInsight_positive (tracks : List TrackFeatures)
    (predictions : InsightPredictions)
    (hpred : predictions.mood_prediction.valence > 0.7)
    (havg : mean (tracks.map (fun t => t.valence)) > 0.7) :
    generateMoodInsight tracks predictions =
      "Your music taste consistently leans towards positive, uplifting tracks. You seem to use music to maintain or boost your mood." ∧
    ("Your music taste consistently leans towards positive, uplifting tracks. You seem to use music to maintain or boost your mood." ≠
      "You gravitate towards more melancholic or introspective music. This could indicate you use music for emotional processing or prefer deeper, more complex emotions.") ∧
    ("Your music taste consistently leans towards positive, uplifting tracks. You seem to use music to maintain or boost your mood." ≠
      "Your model predicts a shift towards more contemplative music choices, possibly indicating a change in mood or preference.") := by
  refine ⟨?_, by decide, by decide⟩
  simp only [generateMoodInsight]
  rw [if_pos hpred, if_pos havg]

/-- C6 witness for the amended claim: scenario A batch with a high predicted
valence. -/
theorem generateMoodInsight_positive_witness :
    (demoPredictions 0.9).mood_prediction.valence > 0.7 ∧
    mean ((List.replicate 20 (demoInsightTrack 0.9 0.85 0.5)).map
      (fun t => t.valence)) > 0.7 ∧
    generateMoodInsight (List.replicate 20 (demoInsightTrack 0.9 0.85 0.5))
        (demoPredictions 0.9) =
      "Your music taste consistently leans towards positive, uplifting tracks. You seem to use music to maintain or boost your mood." :=
  ⟨by norm_num [demoPredictions],
   by simp [demoInsightTrack, mean, List.sum_replicate]; norm_num,
   (generateMoodInsight_positive (List.replicate 20 (demoInsightTrack 0.9 0.85 0.5))
     (demoPredictions 0.9) (by norm_num [demoPredictions])
     (by simp [demoInsightTrack, mean, List.sum_replicate]; norm_num)).1⟩

/-! ## C7 -/

/-- C7: whenever the batch mean skip rate is below 0.1, the patterns list
contains the rarely-skip string and does not contain the skip-frequently
string, whatever the rest of the batch and the predictions look like. -/
theorem generatePatternInsights_rarely_skip (tracks : List TrackFeatures)
    (predictions : InsightPredictions) (_hne : tracks ≠ [])
    (hskip : mean (tracks.map (fun t => t.skip_rate)) < 0.1) :
    "You rarely skip tracks, indicating strong satisfaction with your music choices or patient listening habits." ∈
      generatePatternInsights tracks predictions ∧
    "You tend to skip tracks frequently, suggesting you\x27re selective about what holds your attention." ∉
      generatePatternInsights tracks predictions := by
  have hnotgt : ¬(mean (tracks.map (fun t => t.skip_rate)) > 0.3) := by
    intro hgt
    linarith
  have hkey : ∀ s : String,
      ("You show a preference for music in " ++ s ++
        ", which might contribute to a consistent harmonic feel in your listening.") ≠
        "You tend to skip tracks frequently, suggesting you\x27re selective about what holds your attention." :=
    fun s => append3_ne _ s _ _ 5 (by decide) (by decide)
  have htempo : ∀ s : String,
      ("Your tempo preferences are consistent, clustering around " ++ s ++ " BPM.") ≠
        "You tend to skip tracks frequently, suggesting you\x27re selective about what holds your attention." :=
    fun s => append3_ne _ s _ _ 4 (by decide) (by decide)
  simp only [generatePatternInsights]
  rw [if_neg hnotgt, if_pos hskip, if_pos (by simp)]
  constructor
  · simp
  · intro hmem
    simp only [List.mem_append] at hmem
    rcases hmem with ((((((h | h) | h) | h) | h) | h) | h)
    · simp at h
    · revert h
      split_ifs <;> simp
    · rcases hdk : (analyzeKeyDistribution tracks).dominantKey with _ | k
      · rw [hdk] at h
        simp at h
      · rw [hdk] at h
        simp at h
        exact hkey _ h.symm
    · revert h
      split_ifs with hc
      · intro h
        simp at h
        exact htempo _ h.symm
      · intro h
        simp at h
    · revert h
      split_ifs <;> simp
    · revert h
      split_ifs <;> simp
    · revert h
      split_ifs <;> simp

/-- C7 witness: a 20-track batch with constant skip rate 0.05. -/
theorem generatePatternInsights_rarely_skip_witness :
    (List.replicate 20 (demoInsightTrack 0.9 0.85 0.05)) ≠ [] ∧
    mean ((List.replicate 20 (demoInsightTrack 0.9 0.85 0.05)).map
      (fun t => t.skip_rate)) < 0.1 ∧
    ("You rarely skip tracks, indicating strong satisfaction with your music choices or patient listening habits." ∈
      generatePatternInsights (List.replicate 20 (demoInsightTrack 0.9 0.85 0.05))
        (demoPredictions 0.9) ∧
    "You tend to skip tracks frequently, suggesting you\x27re selective about what holds your attention." ∉
      generatePatternInsights (List.replicate 20 (demoInsightTrack 0.9 0.85 0.05))
        (demoPredictions 0.9)) :=
  ⟨by simp,
   by simp [demoInsightTrack, mean, List.sum_replicate]; norm_num,
   generatePatternInsights_rarely_skip
     (List.replicate 20 (demoInsightTrack 0.9 0.85 0.05)) (demoPredictions 0.9)
     (by simp)
     (by simp [demoInsightTrack, mean, List.sum_replicate]; norm_num)⟩

/-! ## C8 -/

/-- C8: the diversity insight is invariant under permutation of the track
batch: the mean of the five per-feature standard deviations does not depend
on track order, so neither does the classification string. -/
theorem generateDiversityInsight_order_invariant (l1 l2 : List TrackFeatures)
    (h : l1.Perm l2) :
    generateDiversityInsight l1 = generateDiversityInsight l2 := by
  have hs : diversityFeatures.map (fun f => standardDeviation (l1.map f)) =
      diversityFeatures.map (fun f => standardDeviation (l2.map f)) :=
    List.map_congr_left (fun f _ => standardDeviation_perm (h.map f))
  unfold generateDiversityInsight
  rw [hs]

/-- C8 witness: swapping a two-track batch leaves the diversity insight
unchanged. -/
theorem generateDiversityInsight_order_invariant_witness :
    ([demoInsightTrack 0.9 0.85 0.5, demoInsightTrack 0.2 0.3 0.5].Perm
      [demoInsightTrack 0.2 0.3 0.5, demoInsightTrack 0.9 0.85 0.5]) ∧
    generateDiversityInsight
        [demoInsightTrack 0.9 0.85 0.5, demoInsightTrack 0.2 0.3 0.5] =
      generateDiversityInsight
        [demoInsightTrack 0.2 0.3 0.5, demoInsightTrack 0.9 0.85 0.5] :=
  ⟨List.Perm.swap _ _ [],
   generateDiversityInsight_order_invariant _ _ (List.Perm.swap _ _ [])⟩

/-! ## C9 -/

/-- C9: `generateInsights` and `generateRecommendations` are deterministic
pure functions of the track batch and the predictions record: identical
inputs yield identical outputs for all five insight fields and the whole
recommendations list, with no other state involved (as witnessed by their
embedding as plain functions of these two arguments). -/
theorem insightEngine_deterministic (t1 t2 : List TrackFeatures)
    (p1 p2 : InsightPredictions) (ht : t1 = t2) (hp : p1 = p2) :
    generateInsights t1 p1 = generateInsights t2 p2 ∧
    generateRecommendations t1 p1 = generateRecommendations t2 p2 := by
  subst ht
  subst hp
  exact ⟨rfl, rfl⟩

/-- C9 witness at a concrete batch and predictions record. -/
theorem insightEngine_deterministic_witness :
    generateInsights [demoInsightTrack 0.9 0.85 0.5] (demoPredictions 0.9) =
      generateInsights [demoInsightTrack 0.9 0.85 0.5] (demoPredictions 0.9) ∧
    generateRecommendations [demoInsightTrack 0.9 0.85 0.5] (demoPredictions 0.9) =
      generateRecommendations [demoInsightTrack 0.9 0.85 0.5] (demoPredictions 0.9) :=
  insightEngine_deterministic _ _ _ _ rfl rfl
